import Mathlib

/-!
Verification of the frame-capture pipeline of `video_visualizer.py` (CARLO).

The development shallowly embeds the two components of the file:

* `convert_tk_color` — the Tk-to-matplotlib color translator;
* `VideoVisualizer` — the headless frame recorder, with its operations
  `create_window`, `update_agents`, `save_video`, `save_gif`, `close`,
  `clear_frames`.

Python strings are modelled as lists of characters (`PyStr`), floats as
rationals, a matplotlib color as either a name / hex string or an RGB
triple.  The matplotlib figure built by `update_agents` is represented by
the ordered list of patches the code adds to it; rasterization by the
(external) Agg backend is modelled from the spec as an idealized painter's
algorithm over world coordinates.  All tokens handled by the program are
ASCII, and the embedding models Python string operations on that range.
-/

/-- A Python string, modelled as its list of characters. -/
abbrev PyStr := List Char

/-- View a Lean string literal as a `PyStr`. -/
def pys (s : String) : PyStr := s.data

/-- Python `str.lower` on the ASCII tokens the program handles. -/
def pyLower (s : PyStr) : PyStr := s.map Char.toLower

/-- Python `int` applied to a decimal digit string (big-endian Horner
evaluation), as in `int(match.group(1))` at line 24 of the source. -/
def digitsToNat (s : PyStr) : ℕ :=
  s.foldl (fun a c => 10 * a + (c.toNat - 48)) 0

/-- Core of the regex `^gr[ae]y(\d+)$` (line 22 of the source), with the
digit group required to reach the exact end of the string: a four character
prefix "gray" or "grey" followed by at least one decimal digit. -/
def grayCore (s : PyStr) : Option ℕ :=
  if (s.take 4 = pys "gray" ∨ s.take 4 = pys "grey") ∧
      s.drop 4 ≠ [] ∧ (s.drop 4).all Char.isDigit = true then
    some (digitsToNat (s.drop 4))
  else none

/-- Python `re.match(r'^gr[ae]y(\d+)$', s)`: the anchor `$` matches at the
end of the string or just before one trailing newline. -/
def grayMatch (s : PyStr) : Option ℕ :=
  match grayCore s with
  | some n => some n
  | none =>
    if s.getLast? = some '\n' then grayCore s.dropLast else none

/-- A matplotlib-compatible color value: a color name or hex code passed
through as a string, or an RGB triple of floats (modelled as rationals). -/
inductive MplColor
  | named : PyStr → MplColor
  | rgb : ℚ → ℚ → ℚ → MplColor
  deriving DecidableEq

/-- The `tk_to_mpl` alias dictionary of `convert_tk_color` (lines 27-34 of
the source), as a lookup function on keys. -/
def tk_to_mpl (s : PyStr) : Option PyStr :=
  if s = pys "gray" then some (pys "gray")
  else if s = pys "grey" then some (pys "gray")
  else if s = pys "lightgray" then some (pys "lightgray")
  else if s = pys "lightgrey" then some (pys "lightgray")
  else if s = pys "darkgray" then some (pys "darkgray")
  else if s = pys "darkgrey" then some (pys "darkgray")
  else none

/-- `convert_tk_color` (lines 10-39 of the source).  `none` models Python
`None`; a gray-level token becomes an RGB triple with each channel the
parsed integer divided by 100, an alias key maps through the dictionary,
anything else is returned unchanged. -/
def convert_tk_color : Option PyStr → MplColor
  | none => MplColor.named (pys "blue")
  | some color =>
    match grayMatch (pyLower color) with
    | some n => MplColor.rgb ((n : ℚ) / 100) ((n : ℚ) / 100) ((n : ℚ) / 100)
    | none =>
      match tk_to_mpl (pyLower color) with
      | some m => MplColor.named m
      | none => MplColor.named color

/-- A 2D point of the geometry collaborator (real coordinates, modelled as
rationals). -/
structure Point where
  x : ℚ
  y : ℚ
  deriving DecidableEq

/-- One corner object of a `RectangleEntity`.  `bad` models a corner whose
attribute access (`c.x`, `c.y` in line 100 of the source) raises at render
time — the malformed-geometry failure contemplated by the spec. -/
inductive Corner
  | ok : Point → Corner
  | bad : Corner
  deriving DecidableEq

/-- An entity snapshot handed to `update_agents`.  `color = none` models
both a missing `color` attribute and a `None` color: lines 18-19 and 83 of
the source give the default blue in either case.  `unknown` is an entity
that is none of the three recognized classes; the drawing loop skips it. -/
inductive Agent
  | ring (center : Point) (inner_radius outer_radius : ℚ) (color : Option PyStr)
  | circle (center : Point) (radius : ℚ) (color : Option PyStr)
  | rectangle (corners : List Corner) (color : Option PyStr)
  | unknown (color : Option PyStr)
  deriving DecidableEq

/-- A matplotlib patch added to the axes by `update_agents`: a filled
circle (`MplCircle`, `edgecolor='none'`) or a filled closed polygon
(`MplPolygon`, `edgecolor='none'`). -/
inductive Patch
  | circlePatch (center : Point) (radius : ℚ) (facecolor : MplColor)
  | polygonPatch (corners : List Point) (facecolor : MplColor)
  deriving DecidableEq

/-- The fill color of a patch. -/
def Patch.facecolor : Patch → MplColor
  | Patch.circlePatch _ _ col => col
  | Patch.polygonPatch _ col => col

/-- One edge test of the even-odd ray-casting point-in-polygon rule, part
of the idealized model of the external matplotlib Agg rasterizer. -/
def raySide (a b p : Point) : Bool :=
  (decide (a.y > p.y) != decide (b.y > p.y)) &&
    decide (p.x < a.x + (b.x - a.x) * (p.y - a.y) / (b.y - a.y))

/-- Even-odd point-in-polygon test over the closed edge cycle. -/
def inPolygon (pts : List Point) (p : Point) : Bool :=
  ((pts.zip (pts.rotate 1)).countP (fun e => raySide e.1 e.2 p)) % 2 == 1

/-- Whether a patch covers a world point.  Circles are closed disks.
Modelled from the spec: rasterization itself is performed by the external
matplotlib backend, outside this repository; the spec describes it as
exact filled-region coverage prior to antialiasing tolerance. -/
def patchContains : Patch → Point → Bool
  | Patch.circlePatch c r _, p =>
    decide ((p.x - c.x) ^ 2 + (p.y - c.y) ^ 2 ≤ r ^ 2)
  | Patch.polygonPatch pts _, p => inPolygon pts p

/-- Idealized painter-algorithm rasterization: the color of a world point
is the fill color of the last patch covering it, the background color if
none does.  Patches are in `ax.add_patch` call order, so later patches
render on top of earlier ones. -/
def rasterizeAt (bg : MplColor) (patches : List Patch) (p : Point) : MplColor :=
  patches.foldl (fun acc pa => if patchContains pa p then pa.facecolor else acc) bg

/-- One captured frame: the RGB pixel grid produced by lines 104-109 of the
source.  `channels = 3` records the `[:, :, :3]` alpha strip; the pixel
content is the idealized rasterization sampled at world coordinates. -/
structure Frame where
  widthPx : ℕ
  heightPx : ℕ
  channels : ℕ
  pixel : Point → MplColor

/-- The recorder state: constructor arguments, the frame buffer, the
API-compatibility flag, and the background color.  `bg_color = none`
models the attribute not existing before `create_window` runs (the
`hasattr` guard at line 74 of the source). -/
structure VideoVisualizer where
  width : ℚ
  height : ℚ
  ppm : ℕ
  frames : List Frame
  window_created : Bool
  bg_color : Option PyStr

/-- `VideoVisualizer.__init__` (lines 43-54 of the source). -/
def VideoVisualizer.init (width height : ℚ) (ppm : ℕ) : VideoVisualizer :=
  { width := width, height := height, ppm := ppm, frames := [],
    window_created := false, bg_color := none }

/-- `create_window` (lines 56-59): stores the background color and sets the
flag; no window is created. -/
def VideoVisualizer.create_window (vv : VideoVisualizer) (bg_color : PyStr) :
    VideoVisualizer :=
  { vv with bg_color := some bg_color, window_created := true }

/-- The background color a capture call uses (line 74 of the source):
`self.bg_color` when the attribute exists, the literal 'gray' otherwise,
passed through `convert_tk_color`. -/
def effectiveBg (vv : VideoVisualizer) : MplColor :=
  convert_tk_color (some (vv.bg_color.getD (pys "gray")))

/-- Canvas width in pixels: the figure is `width * ppm / 100` inches wide
at 100 dpi (lines 67-70), so the canvas holds `width * ppm` pixels,
rounded to an integer by the backend. -/
def pxWidth (vv : VideoVisualizer) : ℕ :=
  (round (vv.width * (vv.ppm : ℚ))).toNat

/-- Canvas height in pixels, as `pxWidth`. -/
def pxHeight (vv : VideoVisualizer) : ℕ :=
  (round (vv.height * (vv.ppm : ℚ))).toNat

/-- Reading a corner's coordinates; `bad` raises. -/
def cornerPoint : Corner → Option Point
  | Corner.ok p => some p
  | Corner.bad => none

/-- The list comprehension `[(c.x, c.y) for c in agent.corners]` (line 100
of the source): fails as soon as one corner raises. -/
def cornerPoints : List Corner → Option (List Point)
  | [] => some []
  | c :: rest =>
    match cornerPoint c with
    | none => none
    | some p =>
      match cornerPoints rest with
      | none => none
      | some ps => some (p :: ps)

/-- The patches one loop iteration of `update_agents` adds (lines 82-102):
a ring adds the outer disk in the entity color then the inner disk in the
current background color; a circle adds one disk; a rectangle adds one
polygon through its corner points (raising if a corner is malformed); any
other entity adds nothing. -/
def drawAgent (bg : MplColor) : Agent → Except Unit (List Patch)
  | Agent.ring c ri ro col =>
    Except.ok [Patch.circlePatch c ro (convert_tk_color col),
               Patch.circlePatch c ri bg]
  | Agent.circle c r col =>
    Except.ok [Patch.circlePatch c r (convert_tk_color col)]
  | Agent.rectangle cs col =>
    match cornerPoints cs with
    | none => Except.error ()
    | some ps => Except.ok [Patch.polygonPatch ps (convert_tk_color col)]
  | Agent.unknown _ => Except.ok []

/-- The whole drawing loop of `update_agents`: patches accumulate in agent
order; the first raising agent aborts the loop and the exception
propagates. -/
def drawAgents (bg : MplColor) : List Agent → Except Unit (List Patch)
  | [] => Except.ok []
  | a :: rest =>
    match drawAgent bg a with
    | Except.error e => Except.error e
    | Except.ok ps =>
      match drawAgents bg rest with
      | Except.error e => Except.error e
      | Except.ok qs => Except.ok (ps ++ qs)

/-- Result of one `update_agents` call.  `figureClosed` records whether
`plt.close(fig)` (line 110) ran; `raised` whether an exception propagated
out of the call, skipping the remaining statements. -/
structure CaptureResult where
  state : VideoVisualizer
  figureClosed : Bool
  raised : Bool

/-- `update_agents` (lines 61-110 of the source).  On success the
rasterized frame (alpha stripped, deep copy) is appended and the figure is
closed.  If drawing an agent raises, the statements after the loop — the
canvas draw, the frame append and `plt.close(fig)` — are skipped: the
exception propagates with the buffer unchanged and the figure still open,
since no `try/finally` protects line 110. -/
def VideoVisualizer.update_agents (vv : VideoVisualizer) (agents : List Agent) :
    CaptureResult :=
  match drawAgents (effectiveBg vv) agents with
  | Except.error _ =>
    { state := vv, figureClosed := false, raised := true }
  | Except.ok patches =>
    { state := { vv with
        frames := vv.frames ++
          [{ widthPx := pxWidth vv, heightPx := pxHeight vv, channels := 3,
             pixel := rasterizeAt (effectiveBg vv) patches }] },
      figureClosed := true, raised := false }

/-- A message printed by a save call. -/
inductive SaveMessage
  | noFramesToSave
  | savedFrames (count : ℕ) (filename : PyStr)
  deriving DecidableEq

/-- Observable outcome of a save call: the recorder state afterwards, the
messages printed, and the file handed to `imageio.mimsave` (destination,
frames in buffer order, frame rate), if any. -/
structure SaveResult where
  state : VideoVisualizer
  messages : List SaveMessage
  fileWritten : Option (PyStr × List Frame × ℕ)

/-- `save_video` (lines 112-119): on an empty buffer print the guard
message and return without writing; otherwise hand all frames to
`imageio.mimsave` and report the count. -/
def VideoVisualizer.save_video (vv : VideoVisualizer) (filename : PyStr)
    (fps : ℕ) : SaveResult :=
  if vv.frames.isEmpty then
    { state := vv, messages := [SaveMessage.noFramesToSave], fileWritten := none }
  else
    { state := vv,
      messages := [SaveMessage.savedFrames vv.frames.length filename],
      fileWritten := some (filename, vv.frames, fps) }

/-- `save_gif` (lines 121-128): the same statements as `save_video`. -/
def VideoVisualizer.save_gif (vv : VideoVisualizer) (filename : PyStr)
    (fps : ℕ) : SaveResult :=
  if vv.frames.isEmpty then
    { state := vv, messages := [SaveMessage.noFramesToSave], fileWritten := none }
  else
    { state := vv,
      messages := [SaveMessage.savedFrames vv.frames.length filename],
      fileWritten := some (filename, vv.frames, fps) }

/-- `close` (lines 130-132): resets the API-compatibility flag only. -/
def VideoVisualizer.close (vv : VideoVisualizer) : VideoVisualizer :=
  { vv with window_created := false }

/-- `clear_frames` (lines 134-136): empties the frame buffer. -/
def VideoVisualizer.clear_frames (vv : VideoVisualizer) : VideoVisualizer :=
  { vv with frames := [] }

/-- Whether a corner renders without raising. -/
def cornerOk : Corner → Bool
  | Corner.ok _ => true
  | Corner.bad => false

/-- Whether drawing an agent succeeds. -/
def agentOk : Agent → Bool
  | Agent.rectangle cs _ => cs.all cornerOk
  | _ => true

/-- Whether a whole capture call succeeds. -/
def agentsOk (l : List Agent) : Bool := l.all agentOk

/-- The patch list of one successfully drawn agent. -/
def agentPatches (bg : MplColor) : Agent → List Patch
  | Agent.ring c ri ro col =>
    [Patch.circlePatch c ro (convert_tk_color col),
     Patch.circlePatch c ri bg]
  | Agent.circle c r col =>
    [Patch.circlePatch c r (convert_tk_color col)]
  | Agent.rectangle cs col =>
    [Patch.polygonPatch (cs.filterMap cornerPoint) (convert_tk_color col)]
  | Agent.unknown _ => []

/-- The patch list of a successful capture call, in agent order. -/
def patchesOf (bg : MplColor) : List Agent → List Patch
  | [] => []
  | a :: rest => agentPatches bg a ++ patchesOf bg rest

/-- The frame a successful capture appends. -/
def renderFrame (vv : VideoVisualizer) (agents : List Agent) : Frame :=
  { widthPx := pxWidth vv, heightPx := pxHeight vv, channels := 3,
    pixel := rasterizeAt (effectiveBg vv) (patchesOf (effectiveBg vv) agents) }

/-- A sequence of capture calls, one per simulation step. -/
def captureSeq (vv : VideoVisualizer) : List (List Agent) → VideoVisualizer
  | [] => vv
  | ags :: rest => captureSeq (vv.update_agents ags).state rest

/-- The decimal digit string of a natural number, most significant digit
first (the token form `"gray{n}"` is built from it). -/
def natToDigits (n : ℕ) : PyStr :=
  if n = 0 then ['0'] else (Nat.digits 10 n).reverse.map Nat.digitChar

lemma digitChar_toNat_sub (d : ℕ) (hd : d < 10) :
    (Nat.digitChar d).toNat - 48 = d := by
  interval_cases d <;> decide

lemma digitChar_isDigit (d : ℕ) (hd : d < 10) :
    (Nat.digitChar d).isDigit = true := by
  interval_cases d <;> decide

lemma digitChar_toLower (d : ℕ) (hd : d < 10) :
    (Nat.digitChar d).toLower = Nat.digitChar d := by
  interval_cases d <;> decide

lemma foldl_horner_reverse (l : List ℕ) :
    l.reverse.foldl (fun a d => 10 * a + d) 0 = Nat.ofDigits 10 l := by
  induction l with
  | nil => simp [Nat.ofDigits]
  | cons d l ih =>
    rw [List.reverse_cons, List.foldl_append, Nat.ofDigits_cons, ih]
    simp
    ring

lemma digitsToNat_natToDigits (n : ℕ) : digitsToNat (natToDigits n) = n := by
  by_cases h : n = 0
  · subst h; decide
  · unfold natToDigits digitsToNat
    rw [if_neg h, List.foldl_map]
    have hlt : ∀ d ∈ (Nat.digits 10 n).reverse, d < 10 := by
      intro d hd
      exact Nat.digits_lt_base (by norm_num) (List.mem_reverse.mp hd)
    rw [List.foldl_ext _ (fun a d => 10 * a + d) 0
      (fun a d hd => by rw [digitChar_toNat_sub d (hlt d hd)])]
    rw [foldl_horner_reverse]
    exact Nat.ofDigits_digits 10 n

lemma natToDigits_ne_nil (n : ℕ) : natToDigits n ≠ [] := by
  unfold natToDigits
  by_cases h : n = 0
  · simp [h]
  · simp [h, Nat.digits_ne_nil_iff_ne_zero]

lemma natToDigits_all_isDigit (n : ℕ) :
    (natToDigits n).all Char.isDigit = true := by
  unfold natToDigits
  by_cases h : n = 0
  · simp [h]
  · rw [if_neg h, List.all_eq_true]
    intro c hc
    obtain ⟨d, hd, rfl⟩ := List.mem_map.mp hc
    exact digitChar_isDigit d (Nat.digits_lt_base (by norm_num) (List.mem_reverse.mp hd))

lemma pyLower_natToDigits (n : ℕ) : pyLower (natToDigits n) = natToDigits n := by
  unfold natToDigits pyLower
  by_cases h : n = 0
  · simp [h]
  · rw [if_neg h, List.map_map]
    refine List.map_congr_left ?_
    intro d hd
    exact digitChar_toLower d (Nat.digits_lt_base (by norm_num) (List.mem_reverse.mp hd))

lemma grayCore_prefix_append (pre ds : PyStr)
    (hpre : pre = pys "gray" ∨ pre = pys "grey")
    (h1 : ds ≠ []) (h2 : ds.all Char.isDigit = true) :
    grayCore (pre ++ ds) = some (digitsToNat ds) := by
  have hlen : pre.length = 4 := by rcases hpre with h | h <;> subst h <;> rfl
  have htake : (pre ++ ds).take 4 = pre := by
    rw [← hlen]; exact List.take_left pre ds
  have hdrop : (pre ++ ds).drop 4 = ds := by
    rw [← hlen]; exact List.drop_left pre ds
  unfold grayCore
  rw [htake, hdrop, if_pos ⟨hpre, h1, h2⟩]

lemma grayMatch_prefix_append (pre ds : PyStr)
    (hpre : pre = pys "gray" ∨ pre = pys "grey")
    (h1 : ds ≠ []) (h2 : ds.all Char.isDigit = true) :
    grayMatch (pre ++ ds) = some (digitsToNat ds) := by
  unfold grayMatch
  rw [grayCore_prefix_append pre ds hpre h1 h2]

lemma cornerPoints_eq (cs : List Corner) (h : cs.all cornerOk = true) :
    cornerPoints cs = some (cs.filterMap cornerPoint) := by
  induction cs with
  | nil => rfl
  | cons c rest ih =>
    rw [List.all_cons, Bool.and_eq_true] at h
    cases c with
    | bad => simp [cornerOk] at h
    | ok p =>
      unfold cornerPoints
      rw [ih h.2]
      simp [cornerPoint]

lemma drawAgent_ok (bg : MplColor) (a : Agent) (h : agentOk a = true) :
    drawAgent bg a = Except.ok (agentPatches bg a) := by
  cases a with
  | ring c ri ro col => rfl
  | circle c r col => rfl
  | unknown col => rfl
  | rectangle cs col =>
    simp only [agentOk] at h
    simp only [drawAgent, agentPatches]
    rw [cornerPoints_eq cs h]

lemma drawAgents_ok (bg : MplColor) (l : List Agent) (h : agentsOk l = true) :
    drawAgents bg l = Except.ok (patchesOf bg l) := by
  induction l with
  | nil => rfl
  | cons a rest ih =>
    unfold agentsOk at h ih
    rw [List.all_cons, Bool.and_eq_true] at h
    unfold drawAgents patchesOf
    rw [drawAgent_ok bg a h.1, ih h.2]

lemma update_agents_ok (vv : VideoVisualizer) (agents : List Agent)
    (h : agentsOk agents = true) :
    vv.update_agents agents =
      { state := { vv with frames := vv.frames ++ [renderFrame vv agents] },
        figureClosed := true, raised := false } := by
  unfold VideoVisualizer.update_agents
  rw [drawAgents_ok _ _ h]
  rfl

lemma captureSeq_ok (vv : VideoVisualizer) (calls : List (List Agent))
    (h : ∀ l ∈ calls, agentsOk l = true) :
    captureSeq vv calls = { vv with frames := vv.frames ++ calls.map (renderFrame vv) } := by
  induction calls generalizing vv with
  | nil => simp [captureSeq]
  | cons l rest ih =>
    unfold captureSeq
    rw [update_agents_ok vv l (h l (List.mem_cons_self l rest))]
    rw [ih _ (fun l hl => h l (List.mem_cons_of_mem _ hl))]
    simp
    exact fun a _ => rfl

lemma patchesOf_append (bg : MplColor) (l₁ l₂ : List Agent) :
    patchesOf bg (l₁ ++ l₂) = patchesOf bg l₁ ++ patchesOf bg l₂ := by
  induction l₁ with
  | nil => rfl
  | cons a rest ih => simp [patchesOf, ih]

lemma rasterizeAt_append (bg : MplColor) (ps qs : List Patch) (p : Point) :
    rasterizeAt bg (ps ++ qs) p = rasterizeAt (rasterizeAt bg ps p) qs p := by
  unfold rasterizeAt
  rw [List.foldl_append]

/-- C2: for every natural number n and every casing/spelling of the prefix
("gray" or "grey", any letter case), `convert_tk_color` applied to the
token made of the prefix followed by the decimal digits of n returns the
neutral color (n/100, n/100, n/100); in particular "gray50" and "grey50"
translate identically, and values of n outside 0-100 are not clamped. -/
theorem convert_gray_levels (p : PyStr) (n : ℕ)
    (hp : pyLower p = pys "gray" ∨ pyLower p = pys "grey") :
    convert_tk_color (some (p ++ natToDigits n)) =
      MplColor.rgb ((n : ℚ) / 100) ((n : ℚ) / 100) ((n : ℚ) / 100) := by
  have hlow : pyLower (p ++ natToDigits n) = pyLower p ++ natToDigits n := by
    unfold pyLower
    rw [List.map_append]
    rw [show List.map Char.toLower (natToDigits n) = natToDigits n from
      pyLower_natToDigits n]
  have hmatch : grayMatch (pyLower (p ++ natToDigits n)) = some n := by
    rw [hlow, grayMatch_prefix_append (pyLower p) (natToDigits n) hp
      (natToDigits_ne_nil n) (natToDigits_all_isDigit n), digitsToNat_natToDigits]
  simp only [convert_tk_color, hmatch]

/-- Witness for C2 at the mixed-case token "GrEy" ++ digits of 150: the
channel value is 150/100 = 1.5, not clamped. -/
theorem convert_gray_levels_witness :
    (pyLower (pys "GrEy") = pys "gray" ∨ pyLower (pys "GrEy") = pys "grey") ∧
    convert_tk_color (some (pys "GrEy" ++ natToDigits 150)) =
      MplColor.rgb (((150 : ℕ) : ℚ) / 100) (((150 : ℕ) : ℚ) / 100)
        (((150 : ℕ) : ℚ) / 100) :=
  ⟨Or.inr (by decide), convert_gray_levels (pys "GrEy") 150 (Or.inr (by decide))⟩

/-- C8: `convert_tk_color` never rejects a token: an absent token yields
the fixed default "blue", and a token that matches neither the grayscale
pattern nor one of the fixed alias keys is returned unchanged. -/
theorem convert_tk_color_total_pass_through :
    convert_tk_color none = MplColor.named (pys "blue") ∧
    ∀ s : PyStr, grayMatch (pyLower s) = none →
      pyLower s ∉ [pys "gray", pys "grey", pys "lightgray", pys "lightgrey",
                   pys "darkgray", pys "darkgrey"] →
      convert_tk_color (some s) = MplColor.named s := by
  refine ⟨rfl, ?_⟩
  intro s h1 h2
  have h3 : tk_to_mpl (pyLower s) = none := by
    unfold tk_to_mpl
    split_ifs with hA hB hC hD hE hF
    · exact absurd (by simp [hA]) h2
    · exact absurd (by simp [hB]) h2
    · exact absurd (by simp [hC]) h2
    · exact absurd (by simp [hD]) h2
    · exact absurd (by simp [hE]) h2
    · exact absurd (by simp [hF]) h2
    · rfl
  simp only [convert_tk_color, h1, h3]

/-- Witness for C8 at the hex token "#ff00ff": passed through unchanged. -/
theorem convert_tk_color_total_pass_through_witness :
    grayMatch (pyLower (pys "#ff00ff")) = none ∧
    pyLower (pys "#ff00ff") ∉ [pys "gray", pys "grey", pys "lightgray",
      pys "lightgrey", pys "darkgray", pys "darkgrey"] ∧
    convert_tk_color (some (pys "#ff00ff")) = MplColor.named (pys "#ff00ff") :=
  ⟨by decide, by decide,
    convert_tk_color_total_pass_through.2 (pys "#ff00ff") (by decide) (by decide)⟩

/-- C9: `save_video` and `save_gif` are behaviorally identical: on every
recorder state, destination and frame rate they produce the same state,
the same messages and the same encoder call. -/
theorem save_video_eq_save_gif (vv : VideoVisualizer) (filename : PyStr)
    (fps : ℕ) :
    vv.save_video filename fps = vv.save_gif filename fps := rfl

/-- C6: encoding with an empty frame buffer is a no-op: both save entry
points print the "nothing to save" message, write no file, and leave the
recorder state unchanged. -/
theorem save_on_empty_buffer (vv : VideoVisualizer) (filename : PyStr)
    (fps : ℕ) (h : vv.frames = []) :
    vv.save_video filename fps =
      { state := vv, messages := [SaveMessage.noFramesToSave],
        fileWritten := none } ∧
    vv.save_gif filename fps =
      { state := vv, messages := [SaveMessage.noFramesToSave],
        fileWritten := none } := by
  constructor <;> simp [VideoVisualizer.save_video, VideoVisualizer.save_gif, h]

/-- Witness for C6 on a freshly initialized recorder. -/
theorem save_on_empty_buffer_witness :
    (VideoVisualizer.init 1 1 1).frames = [] ∧
    (VideoVisualizer.init 1 1 1).save_video (pys "out.mp4") 24 =
      { state := VideoVisualizer.init 1 1 1,
        messages := [SaveMessage.noFramesToSave], fileWritten := none } ∧
    (VideoVisualizer.init 1 1 1).save_gif (pys "out.mp4") 24 =
      { state := VideoVisualizer.init 1 1 1,
        messages := [SaveMessage.noFramesToSave], fileWritten := none } :=
  ⟨rfl, save_on_empty_buffer (VideoVisualizer.init 1 1 1) (pys "out.mp4") 24 rfl⟩

/-- C5 fails on the code: `update_agents` never consults `window_created`,
so a capture performed right after `close()` still appends a frame (the
buffer of this closed session grows from 0 to 1 frames). -/
theorem capture_after_close_appends :
    ((((VideoVisualizer.init 1 1 10).create_window (pys "gray")).close).update_agents
        []).state.frames.length = 1 ∧
    (((VideoVisualizer.init 1 1 10).create_window (pys "gray")).close).frames.length
      = 0 :=
  ⟨rfl, rfl⟩

/-- C5 amended: `close()` only resets the `window_created` flag; it does
not gate later captures, and a successful capture after `close()` appends
exactly one frame, as before. -/
theorem close_only_clears_flag (vv : VideoVisualizer) (agents : List Agent)
    (hok : agentsOk agents = true) :
    vv.close.window_created = false ∧
    (vv.close.update_agents agents).state.frames.length = vv.frames.length + 1 := by
  refine ⟨rfl, ?_⟩
  rw [update_agents_ok _ _ hok]
  simp [VideoVisualizer.close]

/-- Witness for the amended C5. -/
theorem close_only_clears_flag_witness :
    agentsOk [] = true ∧
    (VideoVisualizer.init 1 1 10).close.window_created = false ∧
    ((VideoVisualizer.init 1 1 10).close.update_agents []).state.frames.length =
      (VideoVisualizer.init 1 1 10).frames.length + 1 :=
  ⟨by decide, close_only_clears_flag (VideoVisualizer.init 1 1 10) [] (by decide)⟩

/-- C7: `clear_frames` empties the frame buffer and changes nothing else
(world extent, pixel density, background color and the session flag are
untouched), and a successful capture after `clear_frames` yields a buffer
of length exactly 1. -/
theorem clear_frames_resets_only_frames (vv : VideoVisualizer)
    (agents : List Agent) (hok : agentsOk agents = true) :
    vv.clear_frames.frames = [] ∧
    vv.clear_frames.width = vv.width ∧
    vv.clear_frames.height = vv.height ∧
    vv.clear_frames.ppm = vv.ppm ∧
    vv.clear_frames.bg_color = vv.bg_color ∧
    vv.clear_frames.window_created = vv.window_created ∧
    (vv.clear_frames.update_agents agents).state.frames.length = 1 := by
  refine ⟨rfl, rfl, rfl, rfl, rfl, rfl, ?_⟩
  rw [update_agents_ok _ _ hok]
  rfl

/-- Witness for C7. -/
theorem clear_frames_resets_only_frames_witness :
    agentsOk [] = true ∧
    ((VideoVisualizer.init 4 4 5).clear_frames.frames = [] ∧
     (VideoVisualizer.init 4 4 5).clear_frames.width =
       (VideoVisualizer.init 4 4 5).width ∧
     (VideoVisualizer.init 4 4 5).clear_frames.height =
       (VideoVisualizer.init 4 4 5).height ∧
     (VideoVisualizer.init 4 4 5).clear_frames.ppm =
       (VideoVisualizer.init 4 4 5).ppm ∧
     (VideoVisualizer.init 4 4 5).clear_frames.bg_color =
       (VideoVisualizer.init 4 4 5).bg_color ∧
     (VideoVisualizer.init 4 4 5).clear_frames.window_created =
       (VideoVisualizer.init 4 4 5).window_created ∧
     ((VideoVisualizer.init 4 4 5).clear_frames.update_agents []).state.frames.length
       = 1) :=
  ⟨by decide, clear_frames_resets_only_frames (VideoVisualizer.init 4 4 5) [] (by decide)⟩

/-- C1: after k successful captures since the last clear, the frame buffer
holds exactly k frames, in call order, and every frame has pixel
dimensions width*ppm by height*ppm with 3 color channels (alpha
stripped). -/
theorem frame_buffer_after_captures (vv : VideoVisualizer)
    (calls : List (List Agent)) (W H : ℕ)
    (hok : ∀ l ∈ calls, agentsOk l = true)
    (hW : vv.width * (vv.ppm : ℚ) = (W : ℚ))
    (hH : vv.height * (vv.ppm : ℚ) = (H : ℚ)) :
    (captureSeq vv.clear_frames calls).frames.length = calls.length ∧
    (captureSeq vv.clear_frames calls).frames =
      calls.map (renderFrame vv.clear_frames) ∧
    ∀ f ∈ (captureSeq vv.clear_frames calls).frames,
      f.widthPx = W ∧ f.heightPx = H ∧ f.channels = 3 := by
  have hfr : (captureSeq vv.clear_frames calls).frames =
      calls.map (renderFrame vv.clear_frames) := by
    rw [captureSeq_ok vv.clear_frames calls hok]
    rfl
  refine ⟨?_, hfr, ?_⟩
  · rw [hfr, List.length_map]
  · intro f hf
    rw [hfr] at hf
    obtain ⟨l, hl, rfl⟩ := List.mem_map.mp hf
    refine ⟨?_, ?_, rfl⟩
    · show pxWidth vv.clear_frames = W
      unfold pxWidth
      have hw : vv.clear_frames.width * (vv.clear_frames.ppm : ℚ) = (W : ℚ) := hW
      rw [hw, round_natCast, Int.toNat_natCast]
    · show pxHeight vv.clear_frames = H
      unfold pxHeight
      have hh : vv.clear_frames.height * (vv.clear_frames.ppm : ℚ) = (H : ℚ) := hH
      rw [hh, round_natCast, Int.toNat_natCast]

/-- Witness for C1: a 2m x 3m world at 10 pixels per meter, one capture. -/
theorem frame_buffer_after_captures_witness :
    (∀ l ∈ [[Agent.circle (Point.mk 1 1) 1 none]], agentsOk l = true) ∧
    (VideoVisualizer.init 2 3 10).width * ((VideoVisualizer.init 2 3 10).ppm : ℚ) =
      ((20 : ℕ) : ℚ) ∧
    (VideoVisualizer.init 2 3 10).height * ((VideoVisualizer.init 2 3 10).ppm : ℚ) =
      ((30 : ℕ) : ℚ) ∧
    ((captureSeq (VideoVisualizer.init 2 3 10).clear_frames
        [[Agent.circle (Point.mk 1 1) 1 none]]).frames.length =
      [[Agent.circle (Point.mk 1 1) 1 none]].length ∧
    (captureSeq (VideoVisualizer.init 2 3 10).clear_frames
        [[Agent.circle (Point.mk 1 1) 1 none]]).frames =
      [[Agent.circle (Point.mk 1 1) 1 none]].map
        (renderFrame (VideoVisualizer.init 2 3 10).clear_frames) ∧
    ∀ f ∈ (captureSeq (VideoVisualizer.init 2 3 10).clear_frames
        [[Agent.circle (Point.mk 1 1) 1 none]]).frames,
      f.widthPx = 20 ∧ f.heightPx = 30 ∧ f.channels = 3) :=
  ⟨by decide, by norm_num [VideoVisualizer.init], by norm_num [VideoVisualizer.init],
    frame_buffer_after_captures (VideoVisualizer.init 2 3 10)
      [[Agent.circle (Point.mk 1 1) 1 none]] 20 30 (by decide)
      (by norm_num [VideoVisualizer.init]) (by norm_num [VideoVisualizer.init])⟩

/-- C3: a ring entity is rendered as the outer disk in the entity's
translated color followed by the inner disk in the background color
translated at the same capture call; in the captured frame, points within
the inner radius show the background color and points strictly between
the inner and outer radii show the entity's color. -/
theorem ring_capture_pixels (vv : VideoVisualizer) (ams : List Agent)
    (c : Point) (r1 r2 : ℚ) (col : Option PyStr) (p : Point)
    (hok : agentsOk ams = true) :
    drawAgent (effectiveBg vv) (Agent.ring c r1 r2 col) =
      Except.ok [Patch.circlePatch c r2 (convert_tk_color col),
                 Patch.circlePatch c r1 (effectiveBg vv)] ∧
    (vv.update_agents (ams ++ [Agent.ring c r1 r2 col])).raised = false ∧
    (vv.update_agents (ams ++ [Agent.ring c r1 r2 col])).state.frames =
      vv.frames ++ [renderFrame vv (ams ++ [Agent.ring c r1 r2 col])] ∧
    ((p.x - c.x) ^ 2 + (p.y - c.y) ^ 2 ≤ r1 ^ 2 →
      (renderFrame vv (ams ++ [Agent.ring c r1 r2 col])).pixel p = effectiveBg vv) ∧
    (r1 ^ 2 < (p.x - c.x) ^ 2 + (p.y - c.y) ^ 2 →
      (p.x - c.x) ^ 2 + (p.y - c.y) ^ 2 ≤ r2 ^ 2 →
      (renderFrame vv (ams ++ [Agent.ring c r1 r2 col])).pixel p =
        convert_tk_color col) := by
  have hok2 : agentsOk (ams ++ [Agent.ring c r1 r2 col]) = true := by
    unfold agentsOk at hok ⊢
    rw [List.all_append, hok]
    rfl
  have hpix : (renderFrame vv (ams ++ [Agent.ring c r1 r2 col])).pixel p =
      rasterizeAt
        (rasterizeAt (effectiveBg vv) (patchesOf (effectiveBg vv) ams) p)
        [Patch.circlePatch c r2 (convert_tk_color col),
         Patch.circlePatch c r1 (effectiveBg vv)] p := by
    show rasterizeAt (effectiveBg vv)
        (patchesOf (effectiveBg vv) (ams ++ [Agent.ring c r1 r2 col])) p = _
    rw [patchesOf_append, rasterizeAt_append]
    rfl
  refine ⟨rfl, ?_, ?_, ?_, ?_⟩
  · rw [update_agents_ok _ _ hok2]
  · rw [update_agents_ok _ _ hok2]
  · intro hin
    rw [hpix]
    unfold rasterizeAt
    simp only [List.foldl_cons, List.foldl_nil, patchContains, Patch.facecolor,
      decide_eq_true_eq]
    rw [if_pos hin]
  · intro hgt hle
    rw [hpix]
    unfold rasterizeAt
    simp only [List.foldl_cons, List.foldl_nil, patchContains, Patch.facecolor,
      decide_eq_true_eq]
    rw [if_neg (not_le.mpr hgt), if_pos hle]

/-- Witness for C3: a concrete ring with inner radius 1 and outer radius 2
around (5,5); the frame pixel at the center shows the background color. -/
theorem ring_capture_pixels_witness :
    agentsOk [] = true ∧
    (renderFrame (VideoVisualizer.init 10 10 1)
        ([] ++ [Agent.ring (Point.mk 5 5) 1 2 (some (pys "red"))])).pixel
        (Point.mk 5 5) =
      effectiveBg (VideoVisualizer.init 10 10 1) :=
  ⟨by decide,
    (ring_capture_pixels (VideoVisualizer.init 10 10 1) [] (Point.mk 5 5) 1 2
        (some (pys "red")) (Point.mk 5 5) (by decide)).2.2.2.1 (by norm_num)⟩

/-- C4 at the failing input: when rasterizing an entity raises (a
rectangle corner whose attribute access fails), the capture fails without
appending any frame, but the statements after the drawing loop are
skipped, so `plt.close(fig)` does not run and the rendering surface is
not released on that exit path. -/
theorem capture_failure_skips_figure_close :
    (((VideoVisualizer.init 1 1 10).update_agents
        [Agent.rectangle [Corner.bad] none]).raised = true) ∧
    (((VideoVisualizer.init 1 1 10).update_agents
        [Agent.rectangle [Corner.bad] none]).figureClosed = false) ∧
    (((VideoVisualizer.init 1 1 10).update_agents
        [Agent.rectangle [Corner.bad] none]).state = VideoVisualizer.init 1 1 10) :=
  ⟨rfl, rfl, rfl⟩

/-- C10: a capture before `create_window` has ever been called does not
fail: the missing background attribute falls back to 'gray', exactly one
frame is appended, and the frame buffer is the same as for a session
initialized with `create_window('gray')`. -/
theorem capture_before_create_window (w h : ℚ) (ppm : ℕ) (agents : List Agent)
    (hok : agentsOk agents = true) :
    ((VideoVisualizer.init w h ppm).update_agents agents).raised = false ∧
    ((VideoVisualizer.init w h ppm).update_agents agents).state.frames.length = 1 ∧
    ((VideoVisualizer.init w h ppm).update_agents agents).state.frames =
      (((VideoVisualizer.init w h ppm).create_window (pys "gray")).update_agents
        agents).state.frames := by
  rw [update_agents_ok (VideoVisualizer.init w h ppm) agents hok,
    update_agents_ok ((VideoVisualizer.init w h ppm).create_window (pys "gray"))
      agents hok]
  exact ⟨rfl, rfl, rfl⟩

/-- Witness for C10. -/
theorem capture_before_create_window_witness :
    agentsOk [Agent.unknown none] = true ∧
    (((VideoVisualizer.init 2 3 10).update_agents [Agent.unknown none]).raised
        = false ∧
    ((VideoVisualizer.init 2 3 10).update_agents
        [Agent.unknown none]).state.frames.length = 1 ∧
    ((VideoVisualizer.init 2 3 10).update_agents [Agent.unknown none]).state.frames =
      (((VideoVisualizer.init 2 3 10).create_window (pys "gray")).update_agents
        [Agent.unknown none]).state.frames) :=
  ⟨by decide, capture_before_create_window 2 3 10 [Agent.unknown none] (by decide)⟩
